import Mathlib

/-!
Shallow embedding of the video-analysis engine of the `ai-interview-assistant`
repository and proofs about it.

Modelling conventions:

* JavaScript numbers are modelled as exact rationals (`ℚ`).  All constants in
  the source (`0.25`, `0.5`, `25.6`, ...) are taken at their exact decimal
  value, written as fractions (`1/4`, `1/2`, `128/5`, ...) so that concrete
  inputs evaluate inside the kernel.  Where the source calls `Math.sqrt` the
  computation moves to `ℝ` (`Real.sqrt`) and the corresponding definitions
  are `noncomputable`.
* `Math.round x` rounds half towards positive infinity, i.e. `⌊x + 1/2⌋`,
  which is exactly Mathlib's `round`.  `Math.floor` is `Int.floor`,
  `Math.max`/`Math.min` are `max`/`min`, `Math.abs` is `|·|`.
* JavaScript string messages that are only ever pushed into result lists
  (`getStrengthMessage`, `getImprovementMessage`, the French feedback texts)
  are replaced by values of a finite message alphabet `Msg`; the source maps
  are injective on the dimension keys, so list membership and emptiness are
  preserved exactly.
* Stateful browser resources (the shared `MediaStream`) are modelled by an
  explicit state record and a state-transformer function.
-/

/-! ### Data model (`interface VideoAnalysisData` in `videoAnalysisProcessor.ts`) -/

/-- `posture` field of a sample. -/
structure PostureData where
  score : ℚ
  faceCentered : Bool
  faceVisible : Bool
  appropriateDistance : Bool
deriving DecidableEq

/-- `movement` field of a sample. -/
structure MovementData where
  score : ℚ
  fidgetingLevel : ℚ
  stability : ℚ
deriving DecidableEq

/-- `audioQuality` field of a sample. -/
structure AudioQualityData where
  score : ℚ
  volumeLevel : ℚ
  clarity : ℚ
  consistency : ℚ
deriving DecidableEq

/-- `overall` field of a sample. -/
structure OverallData where
  score : ℚ
  timestamp : ℚ
deriving DecidableEq

/-- One video-analysis sample (`interface VideoAnalysisData`). -/
structure VideoAnalysisData where
  posture : PostureData
  movement : MovementData
  audioQuality : AudioQualityData
  overall : OverallData
deriving DecidableEq

/-- `calculateAverage` from `videoAnalysisProcessor.ts` (0 on the empty list). -/
def calculateAverage (scores : List ℚ) : ℚ :=
  if scores.length = 0 then 0 else scores.sum / (scores.length : ℚ)

/-- Mean of a list of scores; same as `calculateAverage`, named for statements. -/
def meanOf (scores : List ℚ) : ℚ := calculateAverage scores

/-- Population variance of a list of scores, as computed inside
`calculateConsistencyScore`: `Σ (s − mean)² / length`. -/
def varianceOf (scores : List ℚ) : ℚ :=
  (scores.map (fun score => (score - meanOf scores) ^ 2)).sum / (scores.length : ℚ)

/-- `calculatePresenceScore` from `videoAnalysisProcessor.ts`. -/
def calculatePresenceScore (videoData : List VideoAnalysisData) : ℤ :=
  let faceVisibleCount := (videoData.filter (fun d => d.posture.faceVisible)).length
  let faceCenteredCount := (videoData.filter (fun d => d.posture.faceCentered)).length
  let appropriateDistanceCount :=
    (videoData.filter (fun d => d.posture.appropriateDistance)).length
  let presenceFrac : ℚ :=
    ((faceVisibleCount : ℚ) + (faceCenteredCount : ℚ) + (appropriateDistanceCount : ℚ)) /
      ((videoData.length : ℚ) * 3)
  round (presenceFrac * 10)

/-- `calculateProfessionalismScore` from `videoAnalysisProcessor.ts`. -/
def calculateProfessionalismScore (videoData : List VideoAnalysisData) : ℤ :=
  let avgPosture := calculateAverage (videoData.map (fun d => d.posture.score))
  let avgStability := calculateAverage (videoData.map (fun d => d.movement.stability))
  let avgAudioConsistency :=
    calculateAverage (videoData.map (fun d => d.audioQuality.consistency))
  round ((avgPosture + avgStability + avgAudioConsistency) / 3)

/-- `calculateConsistencyScore` from `videoAnalysisProcessor.ts`:
`Math.round (Math.max 0 (10 - standardDeviation * 2))` where the standard
deviation is the square root of the population variance of the per-sample
overall scores. -/
noncomputable def calculateConsistencyScore (videoData : List VideoAnalysisData) : ℤ :=
  let overallScores := videoData.map (fun d => d.overall.score)
  let standardDeviation : ℝ := Real.sqrt ((varianceOf overallScores : ℚ) : ℝ)
  round (max 0 ((10 : ℝ) - standardDeviation * 2))

/-- `videoData[0]?.overall.timestamp || 0`. -/
def firstTimestamp (videoData : List VideoAnalysisData) : ℚ :=
  match videoData.head? with
  | some d => d.overall.timestamp
  | none => 0

/-- `videoData[videoData.length - 1]?.overall.timestamp || 0`. -/
def lastTimestamp (videoData : List VideoAnalysisData) : ℚ :=
  match videoData.getLast? with
  | some d => d.overall.timestamp
  | none => 0

/-- Alphabet of the distinct messages the two processors push into their
`strengths` / `improvementAreas` lists.  Each constructor stands for one
distinct source string: `posture`/`movement`/`audio` for the main processor's
per-dimension messages, `stability`/`voice` for the compatible processor's
second and third dimension, `mediapipe` and `trend` for its two extra pushes,
and the two empty-input placeholder messages. -/
inductive Msg where
  | posture
  | movement
  | audio
  | stability
  | voice
  | mediapipe
  | trend
  | activateVideoAnalysis
  | noAnalysisData
deriving DecidableEq

/-- The `forEach` body of `generateAnalytics`: a dimension with average
score `≥ 8` goes to the strengths list, `else if` it is `< 6` it goes to the
improvement list.  The pushed message (`getStrengthMessage area` /
`getImprovementMessage area`) is modelled by the area key itself, which is
faithful because both message maps are injective on the three keys. -/
def areaLists (avg : ℚ) (area : Msg) : List Msg × List Msg :=
  if avg ≥ 8 then ([area], [])
  else if avg < 6 then ([], [area])
  else ([], [])

/-- `analytics` record of `ProcessedVideoAnalysis`. -/
structure Analytics where
  totalMeasures : ℕ
  analysisTimeMinutes : ℤ
  consistencyScore : ℤ
  improvementAreas : List Msg
  strengths : List Msg
deriving DecidableEq

/-- `generateAnalytics` from `videoAnalysisProcessor.ts`.  The three
dimensions are visited in the fixed object order posture, movement, audio. -/
def generateAnalytics (videoData : List VideoAnalysisData) (consistencyScore : ℤ) :
    Analytics :=
  let analysisTimeMinutes :=
    round ((lastTimestamp videoData - firstTimestamp videoData) / 1000 / 60)
  let avgPosture := calculateAverage (videoData.map (fun d => d.posture.score))
  let avgMovement := calculateAverage (videoData.map (fun d => d.movement.score))
  let avgAudio := calculateAverage (videoData.map (fun d => d.audioQuality.score))
  { totalMeasures := videoData.length
    analysisTimeMinutes := analysisTimeMinutes
    consistencyScore := consistencyScore
    improvementAreas :=
      (areaLists avgPosture Msg.posture).2 ++ (areaLists avgMovement Msg.movement).2 ++
        (areaLists avgAudio Msg.audio).2
    strengths :=
      (areaLists avgPosture Msg.posture).1 ++ (areaLists avgMovement Msg.movement).1 ++
        (areaLists avgAudio Msg.audio).1 }

/-- Result record of `processVideoAnalysisData` (the `breakdown` block, which
holds only feedback strings and re-rounded copies of the same averages, is
omitted). -/
structure ProcessedVideoAnalysis where
  postureScore : ℤ
  stabilityScore : ℤ
  voiceQualityScore : ℤ
  presenceScore : ℤ
  professionalismScore : ℤ
  overallBehavioralScore : ℤ
  analytics : Analytics
deriving DecidableEq

/-- `createEmptyAnalysis` from `videoAnalysisProcessor.ts`; the single French
placeholder message in `improvementAreas` is modelled by
`Msg.activateVideoAnalysis`. -/
def createEmptyAnalysis : ProcessedVideoAnalysis :=
  { postureScore := 0
    stabilityScore := 0
    voiceQualityScore := 0
    presenceScore := 0
    professionalismScore := 0
    overallBehavioralScore := 0
    analytics :=
      { totalMeasures := 0
        analysisTimeMinutes := 0
        consistencyScore := 0
        improvementAreas := [Msg.activateVideoAnalysis]
        strengths := [] } }

/-- `processVideoAnalysisData` from `videoAnalysisProcessor.ts`. -/
noncomputable def processVideoAnalysisData (videoData : List VideoAnalysisData) :
    ProcessedVideoAnalysis :=
  if videoData.length = 0 then createEmptyAnalysis
  else
    let avgPosture := calculateAverage (videoData.map (fun d => d.posture.score))
    let avgMovement := calculateAverage (videoData.map (fun d => d.movement.score))
    let avgAudio := calculateAverage (videoData.map (fun d => d.audioQuality.score))
    let presenceScore := calculatePresenceScore videoData
    let professionalismScore := calculateProfessionalismScore videoData
    let consistencyScore := calculateConsistencyScore videoData
    let overallBehavioralScore :=
      round (avgPosture * (1/4) + avgMovement * (1/4) + avgAudio * (1/5) +
        (presenceScore : ℚ) * (3/20) + (professionalismScore : ℚ) * (3/20))
    { postureScore := round avgPosture
      stabilityScore := round avgMovement
      voiceQualityScore := round avgAudio
      presenceScore := presenceScore
      professionalismScore := professionalismScore
      overallBehavioralScore := overallBehavioralScore
      analytics := generateAnalytics videoData consistencyScore }

/-! ### Trend analysis (`calculateTrendAnalysis`) -/

/-- Trend classification values. -/
inductive Trend where
  | stable
  | improving
  | declining
deriving DecidableEq

/-- Result record of `calculateTrendAnalysis`. -/
structure TrendAnalysis where
  postureTrend : Trend
  movementTrend : Trend
  audioTrend : Trend
  overallTrend : Trend
deriving DecidableEq

/-- The local `getTrend` closure of `calculateTrendAnalysis`:
`|diff| < 0.5 → stable`, otherwise the sign of `diff` decides. -/
def getTrend (first second : ℚ) : Trend :=
  let diff := second - first
  if |diff| < 1/2 then Trend.stable
  else if diff > 0 then Trend.improving
  else Trend.declining

/-- First half of the window: `videoData.slice(0, Math.floor(length / 2))`. -/
def firstHalf (videoData : List VideoAnalysisData) : List VideoAnalysisData :=
  videoData.take (videoData.length / 2)

/-- Second half of the window: `videoData.slice(Math.floor(length / 2))`. -/
def secondHalf (videoData : List VideoAnalysisData) : List VideoAnalysisData :=
  videoData.drop (videoData.length / 2)

/-- Mean of the three per-dimension averages of a half, as used by the
`overallTrend` computation in `calculateTrendAnalysis`. -/
def halfOverallAvg (half : List VideoAnalysisData) : ℚ :=
  (calculateAverage (half.map (fun d => d.posture.score)) +
    calculateAverage (half.map (fun d => d.movement.score)) +
    calculateAverage (half.map (fun d => d.audioQuality.score))) / 3

/-- `calculateTrendAnalysis` from `videoAnalysisProcessor.ts`. -/
def calculateTrendAnalysis (videoData : List VideoAnalysisData) : TrendAnalysis :=
  if videoData.length < 3 then
    { postureTrend := Trend.stable
      movementTrend := Trend.stable
      audioTrend := Trend.stable
      overallTrend := Trend.stable }
  else
    let fh := firstHalf videoData
    let sh := secondHalf videoData
    { postureTrend :=
        getTrend (calculateAverage (fh.map (fun d => d.posture.score)))
          (calculateAverage (sh.map (fun d => d.posture.score)))
      movementTrend :=
        getTrend (calculateAverage (fh.map (fun d => d.movement.score)))
          (calculateAverage (sh.map (fun d => d.movement.score)))
      audioTrend :=
        getTrend (calculateAverage (fh.map (fun d => d.audioQuality.score)))
          (calculateAverage (sh.map (fun d => d.audioQuality.score)))
      overallTrend := getTrend (halfOverallAvg fh) (halfOverallAvg sh) }

/-! ### Backward-compatible processor (`VideoAnalysisResults.tsx`,
`processVideoAnalysisDataCompatible`) -/

/-- Optional `faceDetection` block of the backward-compatible sample format. -/
structure FaceDetectionData where
  confidence : ℚ
  realMediaPipe : Bool
deriving DecidableEq

/-- Sample in the backward-compatible format (`interface VideoAnalysisData`
in `VideoAnalysisResults.tsx`); the optional per-sample MediaPipe extras that
the compatible processor never reads (`faceSize`, alignments, `headMovement`,
`landmarks`) are omitted. -/
structure CompatVideoData where
  posture : PostureData
  movement : MovementData
  audioQuality : AudioQualityData
  overall : OverallData
  faceDetection : Option FaceDetectionData
deriving DecidableEq

/-- Result record of `processVideoAnalysisDataCompatible`, flattened: the
`analytics` sub-object is inlined and the `breakdown`/`mediaLiteracyTips`
blocks (feedback strings and fixed tip texts only) are omitted. -/
structure CompatProcessed where
  postureScore : ℤ
  stabilityScore : ℤ
  voiceQualityScore : ℤ
  presenceScore : ℤ
  professionalismScore : ℤ
  overallBehavioralScore : ℤ
  totalMeasures : ℕ
  analysisTimeMinutes : ℤ
  consistencyScore : ℤ
  improvementTrend : Trend
  strengths : List Msg
  improvementAreas : List Msg
deriving DecidableEq

/-- Per-sample presence summand of the compatible processor:
`min 10 (3·faceVisible + 3·faceCentered + 2·appropriateDistance + 2·(confidence > 0.7))`. -/
def compatPresenceSummand (d : CompatVideoData) : ℚ :=
  let base : ℚ :=
    (if d.posture.faceVisible then 3 else 0) + (if d.posture.faceCentered then 3 else 0) +
      (if d.posture.appropriateDistance then 2 else 0) +
      (match d.faceDetection with
       | some fd => if fd.confidence > 7/10 then 2 else 0
       | none => 0)
  min 10 base

/-- Mean overall score of the first half of a compatible window. -/
def compatFirstHalfAvg (videoAnalysisData : List CompatVideoData) : ℚ :=
  let fh := videoAnalysisData.take (videoAnalysisData.length / 2)
  (fh.map (fun d => d.overall.score)).sum / (fh.length : ℚ)

/-- Mean overall score of the second half of a compatible window. -/
def compatSecondHalfAvg (videoAnalysisData : List CompatVideoData) : ℚ :=
  let sh := videoAnalysisData.drop (videoAnalysisData.length / 2)
  (sh.map (fun d => d.overall.score)).sum / (sh.length : ℚ)

/-- `improvementTrend` computation of the compatible processor: only for more
than 2 samples, first/second half mean *overall* scores, strict `±0.5`
thresholds. -/
def compatImprovementTrend (videoAnalysisData : List CompatVideoData) : Trend :=
  if videoAnalysisData.length > 2 then
    if compatSecondHalfAvg videoAnalysisData > compatFirstHalfAvg videoAnalysisData + 1/2 then
      Trend.improving
    else if compatSecondHalfAvg videoAnalysisData < compatFirstHalfAvg videoAnalysisData - 1/2 then
      Trend.declining
    else Trend.stable
  else Trend.stable

/-- Strength/improvement pushes of the compatible processor for one rounded
dimension score: strength if `≥ 8`, `else if ≤ 5` an improvement area.
Messages are modelled by the dimension tag (the source pushes a distinct
French string per dimension). -/
def compatAreaLists (score : ℤ) (area : Msg) : List Msg × List Msg :=
  if score ≥ 8 then ([area], [])
  else if score ≤ 5 then ([], [area])
  else ([], [])

/-- `videoAnalysisData[0].overall.timestamp` (compatible processor; only read
when the list has more than one element). -/
def firstTimestampCompat (videoAnalysisData : List CompatVideoData) : ℚ :=
  match videoAnalysisData.head? with
  | some d => d.overall.timestamp
  | none => 0

/-- `videoAnalysisData[videoAnalysisData.length - 1].overall.timestamp`
(compatible processor; only read when the list has more than one element). -/
def lastTimestampCompat (videoAnalysisData : List CompatVideoData) : ℚ :=
  match videoAnalysisData.getLast? with
  | some d => d.overall.timestamp
  | none => 0

/-- `processVideoAnalysisDataCompatible` from `VideoAnalysisResults.tsx`.
The empty-input default's French placeholder message is modelled by
`Msg.noAnalysisData`; the extra pushes for MediaPipe usage and for the
improvement trend are modelled by `Msg.mediapipe` and `Msg.trend`. -/
def processVideoAnalysisDataCompatible (videoAnalysisData : List CompatVideoData) :
    CompatProcessed :=
  if videoAnalysisData.length = 0 then
    { postureScore := 0, stabilityScore := 0, voiceQualityScore := 0
      presenceScore := 0, professionalismScore := 0, overallBehavioralScore := 0
      totalMeasures := 0, analysisTimeMinutes := 0, consistencyScore := 0
      improvementTrend := Trend.stable
      strengths := [], improvementAreas := [Msg.noAnalysisData] }
  else
    let n : ℚ := (videoAnalysisData.length : ℚ)
    let postureScore := round ((videoAnalysisData.map (fun d => d.posture.score)).sum / n)
    let stabilityScore := round ((videoAnalysisData.map (fun d => d.movement.score)).sum / n)
    let voiceQualityScore :=
      round ((videoAnalysisData.map (fun d => d.audioQuality.score)).sum / n)
    let presenceScore := round ((videoAnalysisData.map compatPresenceSummand).sum / n)
    let professionalismScore :=
      round (((postureScore : ℚ) + (stabilityScore : ℚ) + (presenceScore : ℚ)) / 3)
    let overallBehavioralScore :=
      round (((postureScore : ℚ) + (stabilityScore : ℚ) + (voiceQualityScore : ℚ) +
        (presenceScore : ℚ)) / 4)
    let timeSpan : ℚ :=
      if videoAnalysisData.length > 1 then
        lastTimestampCompat videoAnalysisData - firstTimestampCompat videoAnalysisData
      else 0
    let analysisTimeMinutes := round (timeSpan / 60000)
    let hasMediaPipeData :=
      videoAnalysisData.any (fun d =>
        match d.faceDetection with
        | some fd => fd.realMediaPipe
        | none => false)
    let improvementTrend := compatImprovementTrend videoAnalysisData
    let consistencyScore :=
      round ((10 : ℚ) -
        ((|postureScore - stabilityScore| : ℤ) + (|stabilityScore - voiceQualityScore| : ℤ) : ℚ) / 2)
    { postureScore := postureScore
      stabilityScore := stabilityScore
      voiceQualityScore := voiceQualityScore
      presenceScore := presenceScore
      professionalismScore := professionalismScore
      overallBehavioralScore := overallBehavioralScore
      totalMeasures := videoAnalysisData.length
      analysisTimeMinutes := analysisTimeMinutes
      consistencyScore := consistencyScore
      improvementTrend := improvementTrend
      strengths :=
        (compatAreaLists postureScore Msg.posture).1 ++
          (compatAreaLists stabilityScore Msg.stability).1 ++
          (compatAreaLists voiceQualityScore Msg.voice).1 ++
          (if hasMediaPipeData then [Msg.mediapipe] else []) ++
          (if improvementTrend = Trend.improving then [Msg.trend] else [])
      improvementAreas :=
        (compatAreaLists postureScore Msg.posture).2 ++
          (compatAreaLists stabilityScore Msg.stability).2 ++
          (compatAreaLists voiceQualityScore Msg.voice).2 ++
          (if improvementTrend = Trend.declining then [Msg.trend] else []) }

/-! ### Heuristic per-frame analysis (`VideoAnalysis.tsx`) -/

/-- Access `data[i]` of a frame's flat RGBA byte array, out-of-range reads
give 0 (the source never reads out of range for well-formed RGBA frames). -/
def pixelAt (data : List ℚ) (i : ℕ) : ℚ := data.getD i 0

/-- The skin-tone pixel test of `analyzePosture`. -/
def isSkinTone (r g b : ℚ) : Bool :=
  decide (r > 95 ∧ g > 40 ∧ b > 20 ∧
    max r (max g b) - min r (min g b) > 15 ∧ |r - g| > 15 ∧ r > g ∧ r > b)

/-- The (r, g, b) triples scanned by the nested loop of `analyzePosture`:
all pixels with `faceTop ≤ y < faceBottom`, `faceLeft ≤ x < faceRight`,
read at flat index `(y * width + x) * 4`. -/
def faceRegionPixels (data : List ℚ) (width height : ℕ) : List (ℚ × ℚ × ℚ) :=
  let faceLeft := (⌊(width : ℚ) * (3/10)⌋).toNat
  let faceRight := (⌊(width : ℚ) * (7/10)⌋).toNat
  let faceTop := (⌊(height : ℚ) * (1/5)⌋).toNat
  let faceBottom := (⌊(height : ℚ) * (3/5)⌋).toNat
  (List.range (faceBottom - faceTop)).flatMap (fun dy =>
    (List.range (faceRight - faceLeft)).map (fun dx =>
      let y := faceTop + dy
      let x := faceLeft + dx
      let i := (y * width + x) * 4
      (pixelAt data i, pixelAt data (i + 1), pixelAt data (i + 2))))

/-- Result record of `analyzePosture` (heuristic path). -/
structure PostureResult where
  score : ℚ
  faceCentered : Bool
  faceVisible : Bool
  appropriateDistance : Bool
deriving DecidableEq

/-- `analyzePosture` from `VideoAnalysis.tsx`: +4 if face visible
(skin fraction > 0.1), +3 if centered (skin fraction > 0.05), +3 if the
average brightness indicates an appropriate distance, capped at 10. -/
def analyzePosture (frameData : List ℚ) (width height : ℕ) : PostureResult :=
  let pixels := faceRegionPixels frameData width height
  let skinPixels := (pixels.filter (fun p => isSkinTone p.1 p.2.1 p.2.2)).length
  let totalBrightness := (pixels.map (fun p => (p.1 + p.2.1 + p.2.2) / 3)).sum
  let regionCount := pixels.length
  let skinFrac : ℚ := (skinPixels : ℚ) / (regionCount : ℚ)
  let avgBrightness : ℚ := totalBrightness / (regionCount : ℚ)
  let faceVisible := decide (skinFrac > 1/10)
  let faceCentered := decide (skinFrac > 1/20)
  let appropriateDistance := decide (avgBrightness > 50 ∧ avgBrightness < 200)
  let score : ℚ :=
    (if faceVisible then 4 else 0) + (if faceCentered then 3 else 0) +
      (if appropriateDistance then 3 else 0)
  { score := min score 10
    faceCentered := faceCentered
    faceVisible := faceVisible
    appropriateDistance := appropriateDistance }

/-- Result record of `analyzeMovement` (heuristic path); the source rounds
each field. -/
structure MovementResult where
  score : ℤ
  fidgetingLevel : ℤ
  stability : ℤ
deriving DecidableEq

/-- The per-sampled-pixel differences of `analyzeMovement`: every 40th flat
index `i`, `|c[i] − p[i]| + |c[i+1] − p[i+1]| + |c[i+2] − p[i+2]|`. -/
def movementDiffs (current previous : List ℚ) : List ℚ :=
  ((List.range current.length).filter (fun i => i % 40 == 0)).map (fun i =>
    |pixelAt current i - pixelAt previous i| +
      |pixelAt current (i + 1) - pixelAt previous (i + 1)| +
      |pixelAt current (i + 2) - pixelAt previous (i + 2)|)

/-- `totalDifference / (current.length / 40)` of `analyzeMovement`. -/
def movementAvgDifference (current previous : List ℚ) : ℚ :=
  (movementDiffs current previous).sum / ((current.length : ℚ) / 40)

/-- `significantChanges / (current.length / 40)` of `analyzeMovement`. -/
def movementChangeFrac (current previous : List ℚ) : ℚ :=
  (((movementDiffs current previous).filter (fun d => decide (d > 30))).length : ℚ) /
    ((current.length : ℚ) / 40)

/-- `analyzeMovement` from `VideoAnalysis.tsx`.  With no previous frame the
source returns `{score: 8, fidgetingLevel: 0, stability: 10}`; otherwise
`stability = max 0 (10 − avgDifference/10)`,
`fidgetingLevel = min 10 (changeFrac · 100)`,
`score = max 0 (10 − fidgetingLevel)`, each rounded. -/
def analyzeMovement (currentFrame : List ℚ) (previousFrame : Option (List ℚ)) :
    MovementResult :=
  match previousFrame with
  | none => { score := 8, fidgetingLevel := 0, stability := 10 }
  | some previous =>
    let avgDifference := movementAvgDifference currentFrame previous
    let changeFrac := movementChangeFrac currentFrame previous
    let stability : ℚ := max 0 (10 - avgDifference / 10)
    let fidgetingLevel : ℚ := min 10 (changeFrac * 100)
    let score : ℚ := max 0 (10 - fidgetingLevel)
    { score := round score
      fidgetingLevel := round fidgetingLevel
      stability := round stability }

/-- Result record of `analyzeAudioQuality` (heuristic path); the source
rounds each field. -/
structure AudioResult where
  score : ℤ
  volumeLevel : ℤ
  clarity : ℤ
  consistency : ℤ
deriving DecidableEq

/-- `analyzeAudioQuality` from `VideoAnalysis.tsx`: mean frequency magnitude
as volume, mid-band (10%–60%) mean as clarity, both scaled by `/ 25.6` and
clamped into `[0, 10]`; `consistency = min 10 (volumeLevel > 2 ? 8 : 4)`.
With no analyser the neutral default `{5,5,5,5}` is returned. -/
def analyzeAudioQuality (analyserData : Option (List ℚ)) : AudioResult :=
  match analyserData with
  | none => { score := 5, volumeLevel := 5, clarity := 5, consistency := 5 }
  | some dataArray =>
    let bufferLength := dataArray.length
    let volume : ℚ := dataArray.sum / (bufferLength : ℚ)
    let midRangeStart := (⌊(bufferLength : ℚ) * (1/10)⌋).toNat
    let midRangeEnd := (⌊(bufferLength : ℚ) * (3/5)⌋).toNat
    let midRangeSum := ((dataArray.drop midRangeStart).take (midRangeEnd - midRangeStart)).sum
    let clarity : ℚ := midRangeSum / ((midRangeEnd : ℚ) - (midRangeStart : ℚ))
    let volumeLevel : ℚ := min 10 (max 0 (volume / (128/5)))
    let clarityScore : ℚ := min 10 (max 0 (clarity / (128/5)))
    let consistency : ℚ := min 10 (if volumeLevel > 2 then 8 else 4)
    let overallScore := round ((volumeLevel + clarityScore + consistency) / 3)
    { score := overallScore
      volumeLevel := round volumeLevel
      clarity := round clarityScore
      consistency := round consistency }

/-- `analyzeFrame` from `VideoAnalysis.tsx`: runs the three analyzers on the
current frame and emits one sample; `Date.now()` is passed in explicitly as
`now`. -/
def analyzeFrame (frameData : List ℚ) (width height : ℕ)
    (previousFrameData : Option (List ℚ)) (analyserData : Option (List ℚ))
    (now : ℚ) : VideoAnalysisData :=
  let postureAnalysis := analyzePosture frameData width height
  let movementAnalysis := analyzeMovement frameData previousFrameData
  let audioAnalysis := analyzeAudioQuality analyserData
  let overallScore :=
    round ((postureAnalysis.score + (movementAnalysis.score : ℚ) +
      (audioAnalysis.score : ℚ)) / 3)
  { posture :=
      { score := postureAnalysis.score
        faceCentered := postureAnalysis.faceCentered
        faceVisible := postureAnalysis.faceVisible
        appropriateDistance := postureAnalysis.appropriateDistance }
    movement :=
      { score := (movementAnalysis.score : ℚ)
        fidgetingLevel := (movementAnalysis.fidgetingLevel : ℚ)
        stability := (movementAnalysis.stability : ℚ) }
    audioQuality :=
      { score := (audioAnalysis.score : ℚ)
        volumeLevel := (audioAnalysis.volumeLevel : ℚ)
        clarity := (audioAnalysis.clarity : ℚ)
        consistency := (audioAnalysis.consistency : ℚ) }
    overall := { score := (overallScore : ℚ), timestamp := now } }

/-! ### MediaPipe per-frame analysis (`VideoAnalysisShared.tsx`) -/

/-- Normalized bounding box of one MediaPipe face detection. -/
structure BoundingBox where
  xCenter : ℚ
  yCenter : ℚ
  width : ℚ
  height : ℚ
deriving DecidableEq

/-- One MediaPipe detection (`interface MediaPipeDetection`); `score` is the
detection confidence. -/
structure MediaPipeDetection where
  boundingBox : BoundingBox
  score : ℚ
deriving DecidableEq

/-- `analyzeAudioQuality` from `VideoAnalysisShared.tsx`: volume is the RMS
of the frequency data (`Math.sqrt` of the mean square), scaling is `/ 20`
rather than `/ 25.6`; otherwise as the heuristic version. -/
noncomputable def analyzeAudioQualityMP (analyserData : Option (List ℚ)) : AudioResult :=
  match analyserData with
  | none => { score := 5, volumeLevel := 5, clarity := 5, consistency := 5 }
  | some dataArray =>
    let bufferLength := dataArray.length
    let volume : ℝ :=
      Real.sqrt ((((dataArray.map (fun v => v * v)).sum / (bufferLength : ℚ) : ℚ)) : ℝ)
    let midRangeStart := (⌊(bufferLength : ℚ) * (1/10)⌋).toNat
    let midRangeEnd := (⌊(bufferLength : ℚ) * (3/5)⌋).toNat
    let midRangeSum := ((dataArray.drop midRangeStart).take (midRangeEnd - midRangeStart)).sum
    let clarity : ℚ := midRangeSum / ((midRangeEnd : ℚ) - (midRangeStart : ℚ))
    let volumeLevel : ℝ := min 10 (max 0 (volume / 20))
    let clarityScore : ℝ := min 10 (max 0 ((clarity : ℝ) / 20))
    let consistency : ℝ := min 10 (if volumeLevel > 2 then 8 else 4)
    let overallScore := round ((volumeLevel + clarityScore + consistency) / 3)
    { score := overallScore
      volumeLevel := round volumeLevel
      clarity := round clarityScore
      consistency := round consistency }

/-- The inter-sample displacements of the MediaPipe movement analysis:
`sqrt (|Δx|² + |Δy|²)` over consecutive history positions. -/
noncomputable def pairwiseDisplacements (positions : List (ℚ × ℚ)) : List ℝ :=
  (positions.zip positions.tail).map (fun pq =>
    Real.sqrt (((|pq.2.1 - pq.1.1| ^ 2 + |pq.2.2 - pq.1.2| ^ 2 : ℚ)) : ℝ))

/-- `headMovement` of `analyzeWithMediaPipe`: 0 unless the face history holds
more than 3 entries, otherwise the mean displacement over the last 10
positions. -/
noncomputable def mpHeadMovement (faceHistory : List BoundingBox) : ℝ :=
  if faceHistory.length > 3 then
    let recentHistory := faceHistory.drop (faceHistory.length - 10)
    let positions := recentHistory.map (fun h => (h.xCenter, h.yCenter))
    if positions.length > 1 then
      (pairwiseDisplacements positions).sum / ((positions.length : ℝ) - 1)
    else 0
  else 0

/-- `posture` block of the MediaPipe analysis result; `faceSize` and the two
alignments are reported rounded to three decimals. -/
structure MPPostureResult where
  score : ℤ
  faceCentered : Bool
  faceVisible : Bool
  appropriateDistance : Bool
  faceSize : ℚ
  horizontalAlignment : ℚ
  verticalAlignment : ℚ
deriving DecidableEq

/-- `movement` block of the MediaPipe analysis result. -/
structure MPMovementResult where
  score : ℤ
  fidgetingLevel : ℤ
  stability : ℤ

/-- `overall` block of the MediaPipe analysis result. -/
structure MPOverallResult where
  score : ℤ
  timestamp : ℚ

/-- Full result of `analyzeWithMediaPipe`. -/
structure MPVideoAnalysisData where
  posture : MPPostureResult
  movement : MPMovementResult
  audioQuality : AudioResult
  overall : MPOverallResult

/-- `Math.round (x * 1000) / 1000`. -/
def roundTo3 (x : ℚ) : ℚ := ((round (x * 1000) : ℤ) : ℚ) / 1000

/-- `analyzeWithMediaPipe` from `VideoAnalysisShared.tsx` for a present
primary face (the source returns `null` when there is no detection or no
bounding box; that case never produces a sample).  Posture: +3 visible
(confidence > 0.6), +3 centered (both alignments < 0.2), +2 appropriate
distance (0.05 < area < 0.4), +1 confidence bonus (> 0.8), +1 very-well-
centered bonus (horizontal alignment < 0.1), capped at 10.  Movement:
`stability = max 0 (10 − headMovement·30)`,
`fidgetingLevel = min 10 (headMovement·25)`,
`score = round (max 0 (10 − fidgetingLevel))`.  The overall score averages
the **raw** posture sum with the rounded movement and audio scores. -/
noncomputable def analyzeWithMediaPipe (primaryFace : MediaPipeDetection)
    (faceHistory : List BoundingBox) (analyserData : Option (List ℚ))
    (now : ℚ) : MPVideoAnalysisData :=
  let bbox := primaryFace.boundingBox
  let faceSize := bbox.width * bbox.height
  let horizontalAlignment := |bbox.xCenter - 1/2|
  let verticalAlignment := |bbox.yCenter - 2/5|
  let faceVisible := decide (primaryFace.score > 3/5)
  let faceCentered := decide (horizontalAlignment < 1/5 ∧ verticalAlignment < 1/5)
  let appropriateDistance := decide (faceSize > 1/20 ∧ faceSize < 2/5)
  let postureScore : ℚ :=
    (if faceVisible then 3 else 0) + (if faceCentered then 3 else 0) +
      (if appropriateDistance then 2 else 0) +
      (if primaryFace.score > 4/5 then 1 else 0) +
      (if horizontalAlignment < 1/10 then 1 else 0)
  let headMovement := mpHeadMovement faceHistory
  let stability : ℝ := max 0 (10 - headMovement * 30)
  let fidgetingLevel : ℝ := min 10 (headMovement * 25)
  let movementScore : ℤ := round (max 0 ((10 : ℝ) - fidgetingLevel))
  let audioAnalysis := analyzeAudioQualityMP analyserData
  { posture :=
      { score := min 10 (round postureScore)
        faceCentered := faceCentered
        faceVisible := faceVisible
        appropriateDistance := appropriateDistance
        faceSize := roundTo3 faceSize
        horizontalAlignment := roundTo3 horizontalAlignment
        verticalAlignment := roundTo3 verticalAlignment }
    movement :=
      { score := movementScore
        fidgetingLevel := round fidgetingLevel
        stability := round stability }
    audioQuality := audioAnalysis
    overall :=
      { score := round ((((postureScore : ℚ) : ℝ) + (movementScore : ℝ) +
          ((audioAnalysis.score : ℤ) : ℝ)) / 3)
        timestamp := now } }

/-- The fallback sample built inside `analyzeFrame` of
`VideoAnalysisShared.tsx` when MediaPipe is not ready or no face is detected:
fixed posture 5 and movement 5, live audio analysis. -/
noncomputable def sharedFallbackAnalysis (analyserData : Option (List ℚ)) (now : ℚ) :
    MPVideoAnalysisData :=
  let audioAnalysis := analyzeAudioQualityMP analyserData
  { posture :=
      { score := 5, faceCentered := false, faceVisible := false
        appropriateDistance := true, faceSize := 0
        horizontalAlignment := 1/2, verticalAlignment := 1/2 }
    movement := { score := 5, fidgetingLevel := 3, stability := 5 }
    audioQuality := audioAnalysis
    overall :=
      { score := round ((((5 : ℝ) + 5 + ((audioAnalysis.score : ℤ) : ℝ)) / 3))
        timestamp := now } }

/-! ### Shared media stream state (`SharedMediaManager.tsx`) -/

/-- One media track; `stopped` is set by `track.stop()`. -/
structure MediaTrack where
  stopped : Bool
deriving DecidableEq

/-- State owned by `MediaProvider`: the `streamRef` ref and the `stream`,
`hasPermissions`, `isInitializing`, `error` React state cells.  A stream is
its list of tracks. -/
structure MediaState where
  streamRef : Option (List MediaTrack)
  stream : Option (List MediaTrack)
  hasPermissions : Bool
  isInitializing : Bool
  error : Option String
deriving DecidableEq

/-- `stopStream` from `SharedMediaManager.tsx`: if a stream is held, stop all
of its tracks and clear `streamRef`, `stream` and `hasPermissions`; if
`streamRef` is already `null`, do nothing. -/
def stopStream (st : MediaState) : MediaState :=
  match st.streamRef with
  | some _ =>
    { st with streamRef := none, stream := none, hasPermissions := false }
  | none => st

/-! ### Ambient inputs (determinism) -/

/-- Ambient state a browser computation could observe: the wall clock
(`Date.now()`) and a source of randomness (`Math.random()` draws). -/
structure Ambient where
  now : ℚ
  randomDraws : ℕ → ℚ

/-- `processVideoAnalysisData` with the ambient state in scope.  The
translation of the source never consults `env`: the function reads neither
the clock nor any randomness — this definition records that fact. -/
noncomputable def processVideoAnalysisDataInEnv (env : Ambient)
    (videoData : List VideoAnalysisData) : ProcessedVideoAnalysis :=
  processVideoAnalysisData videoData

/-! ### Concrete inputs used by witnesses and counterexamples -/

/-- Uniform sample constructor for concrete windows: posture / movement /
audio / overall scores and a timestamp (all flags false, neutral filler for
the remaining numeric fields). -/
def mkSample (p m a o t : ℚ) : VideoAnalysisData :=
  { posture :=
      { score := p, faceCentered := false, faceVisible := false
        appropriateDistance := false }
    movement := { score := m, fidgetingLevel := 0, stability := m }
    audioQuality := { score := a, volumeLevel := 5, clarity := 5, consistency := a }
    overall := { score := o, timestamp := t } }

/-- Uniform compatible-format sample constructor (no `faceDetection` block). -/
def mkCompatSample (p m a o t : ℚ) : CompatVideoData :=
  { posture :=
      { score := p, faceCentered := false, faceVisible := false
        appropriateDistance := false }
    movement := { score := m, fidgetingLevel := 0, stability := m }
    audioQuality := { score := a, volumeLevel := 5, clarity := 5, consistency := a }
    overall := { score := o, timestamp := t }
    faceDetection := none }

/-- Two-sample window whose posture scores are 1 and 2 (mean 3/2). -/
def window12 : List VideoAnalysisData := [mkSample 1 1 1 1 0, mkSample 2 2 2 2 0]

/-- Three-sample window whose second-half mean exceeds the first-half mean by
exactly 1/2. -/
def windowTrendBoundary : List VideoAnalysisData :=
  [mkSample 5 5 5 5 0, mkSample (11/2) (11/2) (11/2) (11/2) 0,
    mkSample (11/2) (11/2) (11/2) (11/2) 0]

/-- One-sample window with maximally spread dimension scores and overall
score 5 (overall-score variance 0). -/
def compatWindowSpread : List CompatVideoData := [mkCompatSample 0 10 0 5 0]

/-- Two-sample window with all dimension scores 5 and overall scores 4 and 6
(overall-score variance 1, mean 5). -/
def compatWindowFlat : List CompatVideoData :=
  [mkCompatSample 5 5 5 4 0, mkCompatSample 5 5 5 6 0]

/-- One-sample window with all scores 5 (variance 0, mean 5). -/
def windowConst5 : List VideoAnalysisData := [mkSample 5 5 5 5 0]

/-- Two-sample window with overall scores 4 and 6 (variance 1, mean 5). -/
def windowVar1 : List VideoAnalysisData := [mkSample 5 5 5 4 0, mkSample 5 5 5 6 0]

/-- Two-sample window whose movement scores average 11/2 (strictly between
5 and 8) while posture and audio average 7. -/
def windowMid : List VideoAnalysisData := [mkSample 7 5 7 5 0, mkSample 7 6 7 6 0]

/-- A MediaPipe detection with confidence 7/8 (> 0.8), centered bounding box
(horizontal alignment 1/8, which is < 0.2 but not < 0.1) and appropriate
distance (area 1/8). -/
def detectionConf875 : MediaPipeDetection :=
  { boundingBox := { xCenter := 5/8, yCenter := 3/8, width := 1/4, height := 1/2 }
    score := 7/8 }

/-- Modelled from the spec (§4.4): the claimed posture scheme — +3 if
present, +3 if centered, +2 if distanceOk, +2 bonus if using the
LandmarkDetector with confidence > 0.8, clamped to [0, 10].  Stated here only
to compare against the code's scheme. -/
def specPostureScore (present centered distanceOk usingLandmark : Bool)
    (confidence : ℚ) : ℤ :=
  max 0 (min 10
    ((if present then 3 else 0) + (if centered then 3 else 0) +
      (if distanceOk then 2 else 0) +
      (if usingLandmark ∧ confidence > 4/5 then 2 else 0)))

/-- The released/idle media state: no stream held. -/
def idleMediaState : MediaState :=
  { streamRef := none, stream := none, hasPermissions := false
    isInitializing := false, error := none }

/-- A media state holding a live one-track stream. -/
def activeMediaState : MediaState :=
  { streamRef := some [{ stopped := false }]
    stream := some [{ stopped := false }]
    hasPermissions := true, isInitializing := false, error := none }

/-- One concrete ambient state. -/
def ambientA : Ambient := { now := 0, randomDraws := fun _ => 0 }

/-- A different concrete ambient state (different clock and randomness). -/
def ambientB : Ambient := { now := 123456789, randomDraws := fun n => (n : ℚ) / 7 }

/-! ### Helper lemmas -/

/-- `Math.round` is monotone. -/
theorem round_le_round {α : Type} [LinearOrderedField α] [FloorRing α]
    {x y : α} (h : x ≤ y) : round x ≤ round y := by
  rw [round_eq, round_eq]
  exact Int.floor_mono (by linarith)

/-- `Math.round` of a value in `[0, 10]` stays in `[0, 10]`. -/
theorem round_mem_zero_ten {α : Type} [LinearOrderedField α] [FloorRing α]
    {x : α} (h0 : 0 ≤ x) (h10 : x ≤ 10) : 0 ≤ round x ∧ round x ≤ 10 := by
  constructor
  · have := round_le_round (α := α) h0
    simpa using this
  · have := round_le_round (α := α) h10
    simpa using this

/-! ### C1: aggregate scores versus per-sample means -/

/-- C1 (amended): for every non-empty window the aggregate's posture,
movement (stability) and audio (voice-quality) scores equal `Math.round`
applied to the arithmetic mean of the corresponding per-sample scores —
not the exact mean itself. -/
theorem aggregate_scores_are_rounded_means (l : List VideoAnalysisData) (h : l ≠ []) :
    (processVideoAnalysisData l).postureScore =
      round ((l.map (fun d => d.posture.score)).sum / (l.length : ℚ)) ∧
    (processVideoAnalysisData l).stabilityScore =
      round ((l.map (fun d => d.movement.score)).sum / (l.length : ℚ)) ∧
    (processVideoAnalysisData l).voiceQualityScore =
      round ((l.map (fun d => d.audioQuality.score)).sum / (l.length : ℚ)) := by
  have hlen : ¬ l.length = 0 := fun hl => h (List.length_eq_zero.mp hl)
  simp [processVideoAnalysisData, calculateAverage, hlen]

/-- C1 (witness): the rounded-mean characterisation evaluated on the
two-sample window with posture scores 1 and 2. -/
theorem aggregate_scores_are_rounded_means_witness :
    (processVideoAnalysisData window12).postureScore =
      round ((window12.map (fun d => d.posture.score)).sum / (window12.length : ℚ)) ∧
    (processVideoAnalysisData window12).stabilityScore =
      round ((window12.map (fun d => d.movement.score)).sum / (window12.length : ℚ)) ∧
    (processVideoAnalysisData window12).voiceQualityScore =
      round ((window12.map (fun d => d.audioQuality.score)).sum / (window12.length : ℚ)) :=
  aggregate_scores_are_rounded_means window12 (by simp [window12])

/-- C1 (counterexample): on the window with posture scores 1 and 2 the
aggregate's posture score (2, the rounded mean) differs from the arithmetic
mean 3/2, so the aggregate's posture score does **not** equal the mean. -/
theorem aggregate_posture_score_not_exact_mean :
    ((processVideoAnalysisData window12).postureScore : ℚ) ≠
      (window12.map (fun d => d.posture.score)).sum / (window12.length : ℚ) := by
  norm_num [processVideoAnalysisData, calculateAverage, window12, mkSample, round_eq]

/-! ### C2: aggregating the empty window -/

/-- C2 (amended): aggregating an empty window returns the documented default
record of both processors — a total function, so no error can occur: every
score is 0, the analytics counters are 0, `strengths` is empty, and
`improvementAreas` holds exactly one placeholder message (it is **not**
empty). -/
theorem empty_window_default_aggregate :
    processVideoAnalysisData [] = createEmptyAnalysis ∧
    createEmptyAnalysis.postureScore = 0 ∧
    createEmptyAnalysis.stabilityScore = 0 ∧
    createEmptyAnalysis.voiceQualityScore = 0 ∧
    createEmptyAnalysis.presenceScore = 0 ∧
    createEmptyAnalysis.professionalismScore = 0 ∧
    createEmptyAnalysis.overallBehavioralScore = 0 ∧
    createEmptyAnalysis.analytics.totalMeasures = 0 ∧
    createEmptyAnalysis.analytics.analysisTimeMinutes = 0 ∧
    createEmptyAnalysis.analytics.consistencyScore = 0 ∧
    createEmptyAnalysis.analytics.strengths = [] ∧
    createEmptyAnalysis.analytics.improvementAreas = [Msg.activateVideoAnalysis] ∧
    processVideoAnalysisDataCompatible [] =
      { postureScore := 0, stabilityScore := 0, voiceQualityScore := 0
        presenceScore := 0, professionalismScore := 0, overallBehavioralScore := 0
        totalMeasures := 0, analysisTimeMinutes := 0, consistencyScore := 0
        improvementTrend := Trend.stable
        strengths := [], improvementAreas := [Msg.noAnalysisData] } := by
  refine ⟨rfl, rfl, rfl, rfl, rfl, rfl, rfl, rfl, rfl, rfl, rfl, rfl, rfl⟩

/-- C2 (counterexample): the empty-window default of both processors has a
**non-empty** `improvementAreas` list (one placeholder message), so the
analytics of the default aggregate are not empty as claimed. -/
theorem empty_window_analytics_not_empty :
    (processVideoAnalysisData []).analytics.improvementAreas ≠ [] ∧
    (processVideoAnalysisDataCompatible []).improvementAreas ≠ [] := by
  constructor <;>
    simp [processVideoAnalysisData, processVideoAnalysisDataCompatible, createEmptyAnalysis]

/-! ### C3: trend classification -/

/-- `getTrend` is `improving` exactly when the difference is at least 1/2
(the boundary value 1/2 itself is classified improving, not stable). -/
theorem getTrend_eq_improving_iff (f s : ℚ) :
    getTrend f s = Trend.improving ↔ 1/2 ≤ s - f := by
  unfold getTrend
  dsimp only
  split_ifs with h1 h2
  · exact iff_of_false (by simp) (not_le.mpr (abs_lt.mp h1).2)
  · exact iff_of_true rfl (by have := not_lt.mp h1; rw [abs_of_pos h2] at this; linarith)
  · exact iff_of_false (by simp) (by have := not_lt.mp h2; intro hc; linarith)

/-- `getTrend` is `declining` exactly when the difference is at most −1/2. -/
theorem getTrend_eq_declining_iff (f s : ℚ) :
    getTrend f s = Trend.declining ↔ s - f ≤ -(1/2) := by
  unfold getTrend
  dsimp only
  split_ifs with h1 h2
  · exact iff_of_false (by simp) (by have := (abs_lt.mp h1).1; intro hc; linarith)
  · exact iff_of_false (by simp) (by intro hc; linarith)
  · refine iff_of_true rfl ?_
    have hd := not_lt.mp h2
    have habs := not_lt.mp h1
    rw [abs_of_nonpos hd] at habs
    linarith

/-- `getTrend` is `stable` exactly when the absolute difference is < 1/2. -/
theorem getTrend_eq_stable_iff (f s : ℚ) :
    getTrend f s = Trend.stable ↔ |s - f| < 1/2 := by
  unfold getTrend
  dsimp only
  split_ifs with h1 h2
  · exact iff_of_true rfl h1
  · exact iff_of_false (by simp) h1
  · exact iff_of_false (by simp) h1

/-- The compatible processor's `improvementTrend` field equals
`compatImprovementTrend` on every input. -/
theorem compat_improvementTrend_eq (lc : List CompatVideoData) :
    (processVideoAnalysisDataCompatible lc).improvementTrend = compatImprovementTrend lc := by
  by_cases h : lc.length = 0
  · simp [processVideoAnalysisDataCompatible, compatImprovementTrend, h]
  · simp [processVideoAnalysisDataCompatible, h]

/-- C3 (amended): with fewer than 3 samples every trend is `Stable` in both
processors.  With at least 3 samples, `calculateTrendAnalysis` splits the
window at `⌊n/2⌋`, compares the means of the three per-dimension half
averages, and classifies Improving when the difference is **at least** +0.5
(not strictly greater, as claimed), Declining when it is at most −0.5, and
Stable when its absolute value is < 0.5; the compatible processor's
`improvementTrend` compares mean overall scores with the strict ±0.5
thresholds of the claim. -/
theorem trend_classification (l : List VideoAnalysisData) :
    (l.length < 3 →
      calculateTrendAnalysis l =
        { postureTrend := Trend.stable, movementTrend := Trend.stable
          audioTrend := Trend.stable, overallTrend := Trend.stable }) ∧
    (3 ≤ l.length →
      ((calculateTrendAnalysis l).overallTrend = Trend.improving ↔
        1/2 ≤ halfOverallAvg (secondHalf l) - halfOverallAvg (firstHalf l)) ∧
      ((calculateTrendAnalysis l).overallTrend = Trend.declining ↔
        halfOverallAvg (secondHalf l) - halfOverallAvg (firstHalf l) ≤ -(1/2)) ∧
      ((calculateTrendAnalysis l).overallTrend = Trend.stable ↔
        |halfOverallAvg (secondHalf l) - halfOverallAvg (firstHalf l)| < 1/2)) ∧
    (∀ lc : List CompatVideoData,
      (lc.length < 3 →
        (processVideoAnalysisDataCompatible lc).improvementTrend = Trend.stable) ∧
      (3 ≤ lc.length →
        ((processVideoAnalysisDataCompatible lc).improvementTrend = Trend.improving ↔
          compatFirstHalfAvg lc + 1/2 < compatSecondHalfAvg lc) ∧
        ((processVideoAnalysisDataCompatible lc).improvementTrend = Trend.declining ↔
          compatSecondHalfAvg lc < compatFirstHalfAvg lc - 1/2))) := by
  refine ⟨fun h => ?_, fun h3 => ?_, fun lc => ⟨fun hlt => ?_, fun h3 => ?_⟩⟩
  · simp [calculateTrendAnalysis, h]
  · have hnot : ¬ l.length < 3 := not_lt.mpr h3
    simp only [calculateTrendAnalysis, if_neg hnot]
    exact ⟨getTrend_eq_improving_iff _ _, getTrend_eq_declining_iff _ _,
      getTrend_eq_stable_iff _ _⟩
  · rw [compat_improvementTrend_eq]
    unfold compatImprovementTrend
    rw [if_neg (by omega)]
  · rw [compat_improvementTrend_eq]
    unfold compatImprovementTrend
    rw [if_pos (by omega)]
    constructor
    · split_ifs with h1 h2
      · exact iff_of_true rfl h1
      · exact iff_of_false (by simp) h1
      · exact iff_of_false (by simp) h1
    · split_ifs with h1 h2
      · exact iff_of_false (by simp) (by intro hc; linarith)
      · exact iff_of_true rfl h2
      · exact iff_of_false (by simp) h2

/-- C3 (witness): the classification evaluated on a one-sample window (all
trends stable) and on the three-sample boundary window. -/
theorem trend_classification_witness :
    calculateTrendAnalysis windowConst5 =
      { postureTrend := Trend.stable, movementTrend := Trend.stable
        audioTrend := Trend.stable, overallTrend := Trend.stable } ∧
    ((calculateTrendAnalysis windowTrendBoundary).overallTrend = Trend.improving ↔
      1/2 ≤ halfOverallAvg (secondHalf windowTrendBoundary) -
        halfOverallAvg (firstHalf windowTrendBoundary)) :=
  ⟨(trend_classification windowConst5).1 (by norm_num [windowConst5]),
   ((trend_classification windowTrendBoundary).2.1 (by norm_num [windowTrendBoundary])).1⟩

/-- C3 (counterexample): a three-sample window whose halves differ by exactly
+0.5 in mean overall score is classified `improving` by
`calculateTrendAnalysis`, although the claim ("Improving only when the
difference **exceeds** +0.5, Stable otherwise") requires `stable` here. -/
theorem trend_boundary_improving :
    3 ≤ windowTrendBoundary.length ∧
    halfOverallAvg (secondHalf windowTrendBoundary) -
      halfOverallAvg (firstHalf windowTrendBoundary) = 1/2 ∧
    (calculateTrendAnalysis windowTrendBoundary).overallTrend = Trend.improving := by
  refine ⟨by norm_num [windowTrendBoundary], ?_, ?_⟩
  · norm_num [halfOverallAvg, secondHalf, firstHalf, windowTrendBoundary, mkSample,
      calculateAverage]
  · have habs : |(1:ℚ)/2| = 1/2 := abs_of_pos (by norm_num)
    norm_num [calculateTrendAnalysis, windowTrendBoundary, mkSample, getTrend,
      halfOverallAvg, firstHalf, secondHalf, calculateAverage, habs]

/-! ### C4: consistency score versus variance -/

/-- The population variance computed by `calculateConsistencyScore` is
non-negative. -/
theorem varianceOf_nonneg (scores : List ℚ) : 0 ≤ varianceOf scores := by
  unfold varianceOf
  apply div_nonneg
  · apply List.sum_nonneg
    intro x hx
    simp only [List.mem_map] at hx
    obtain ⟨s, _, rfl⟩ := hx
    positivity
  · positivity

/-- C4 (amended): the main processor's consistency score
(`calculateConsistencyScore`) is non-increasing in the variance of the
per-sample overall scores — for non-empty windows with equal mean overall
score, the window with the larger variance receives a consistency score that
is at most the other's — and the score always lies in [0, 10].  The
compatible processor's `consistencyScore` is a different formula
(`round (10 − (|posture−stability| + |stability−voice|)/2)`) that does not
depend on the overall-score variance and violates this property. -/
theorem consistency_antitone_in_variance (l1 l2 : List VideoAnalysisData)
    (h1 : l1 ≠ []) (h2 : l2 ≠ [])
    (hmean : meanOf (l1.map (fun d => d.overall.score)) =
      meanOf (l2.map (fun d => d.overall.score)))
    (hvar : varianceOf (l1.map (fun d => d.overall.score)) ≤
      varianceOf (l2.map (fun d => d.overall.score))) :
    calculateConsistencyScore l2 ≤ calculateConsistencyScore l1 ∧
    0 ≤ calculateConsistencyScore l1 ∧ calculateConsistencyScore l1 ≤ 10 := by
  unfold calculateConsistencyScore
  dsimp only
  have hs : Real.sqrt ((varianceOf (l1.map (fun d => d.overall.score)) : ℚ) : ℝ) ≤
      Real.sqrt ((varianceOf (l2.map (fun d => d.overall.score)) : ℚ) : ℝ) :=
    Real.sqrt_le_sqrt (by exact_mod_cast hvar)
  have hnn := Real.sqrt_nonneg ((varianceOf (l1.map (fun d => d.overall.score)) : ℚ) : ℝ)
  refine ⟨round_le_round (max_le_max le_rfl (by linarith)), ?_⟩
  exact round_mem_zero_ten (le_max_left _ _) (max_le (by norm_num) (by linarith))

/-- C4 (witness): the antitonicity applied to the constant window `[5]`
(variance 0) and the window with overall scores 4 and 6 (variance 1, same
mean 5). -/
theorem consistency_antitone_in_variance_witness :
    calculateConsistencyScore windowVar1 ≤ calculateConsistencyScore windowConst5 ∧
    0 ≤ calculateConsistencyScore windowConst5 ∧
    calculateConsistencyScore windowConst5 ≤ 10 :=
  consistency_antitone_in_variance windowConst5 windowVar1
    (by simp [windowConst5]) (by simp [windowVar1])
    (by norm_num [meanOf, calculateAverage, windowConst5, windowVar1, mkSample])
    (by norm_num [varianceOf, meanOf, calculateAverage, windowConst5, windowVar1, mkSample])

/-- C4 (counterexample): for the compatible processor the claim fails: the
one-sample window with spread dimension scores has overall-score variance 0
and consistency 0, while the two-sample window with equal dimension scores
has overall-score variance 1, equal mean, and consistency 10 — the window
with the larger variance receives the strictly larger consistency score. -/
theorem compat_consistency_not_variance_antitone :
    varianceOf (compatWindowSpread.map (fun d => d.overall.score)) ≤
      varianceOf (compatWindowFlat.map (fun d => d.overall.score)) ∧
    meanOf (compatWindowSpread.map (fun d => d.overall.score)) =
      meanOf (compatWindowFlat.map (fun d => d.overall.score)) ∧
    (processVideoAnalysisDataCompatible compatWindowSpread).consistencyScore <
      (processVideoAnalysisDataCompatible compatWindowFlat).consistencyScore := by
  refine ⟨?_, ?_, ?_⟩
  · norm_num [varianceOf, meanOf, calculateAverage, compatWindowSpread, compatWindowFlat,
      mkCompatSample]
  · norm_num [meanOf, calculateAverage, compatWindowSpread, compatWindowFlat, mkCompatSample]
  · norm_num [processVideoAnalysisDataCompatible, compatWindowSpread, compatWindowFlat,
      mkCompatSample, compatPresenceSummand, round_eq]

/-! ### C8: strengths and improvement areas -/

/-- A dimension message is in the strengths half of `areaLists` iff its
average is at least 8. -/
theorem mem_areaLists_fst {avg : ℚ} {a x : Msg} :
    x ∈ (areaLists avg a).1 ↔ x = a ∧ 8 ≤ avg := by
  unfold areaLists
  split_ifs with h1 h2
  · simp [h1]
  · simp
    intro _
    exact not_le.mp h1
  · simp
    intro _
    exact not_le.mp h1

/-- A dimension message is in the improvement half of `areaLists` iff its
average is strictly below 6 (the `else if` guard of the source). -/
theorem mem_areaLists_snd {avg : ℚ} {a x : Msg} :
    x ∈ (areaLists avg a).2 ↔ x = a ∧ avg < 6 := by
  unfold areaLists
  split_ifs with h1 h2
  · simp
    intro _
    linarith
  · simp [h2]
  · simp
    intro _
    exact not_lt.mp h2

/-- Compatible-processor analogue of `mem_areaLists_fst` (threshold `≥ 8` on
the rounded score). -/
theorem mem_compatAreaLists_fst {score : ℤ} {a x : Msg} :
    x ∈ (compatAreaLists score a).1 ↔ x = a ∧ 8 ≤ score := by
  unfold compatAreaLists
  split_ifs with h1 h2
  · simp [h1]
  · simp
    intro _
    omega
  · simp
    intro _
    omega

/-- Compatible-processor analogue of `mem_areaLists_snd` (threshold `≤ 5` on
the rounded score). -/
theorem mem_compatAreaLists_snd {score : ℤ} {a x : Msg} :
    x ∈ (compatAreaLists score a).2 ↔ x = a ∧ score ≤ 5 := by
  unfold compatAreaLists
  split_ifs with h1 h2
  · simp
    intro _
    omega
  · simp [h2]
  · simp
    intro _
    omega

/-- Membership in a conditional singleton list. -/
theorem mem_ite_singleton_iff {α : Type} {x y : α} {c : Prop} [Decidable c] :
    x ∈ (if c then [y] else []) ↔ c ∧ x = y := by
  split <;> simp_all

/-- C8 (amended): in the aggregate of a non-empty window, a dimension is
listed as a strength exactly when its average score is ≥ 8 and as an
improvement area exactly when its average is **< 6** (not ≤ 5 as claimed):
dimensions scoring in [6, 8) appear in neither list, but a dimension scoring
strictly between 5 and 6 is listed as an improvement area.  The compatible
processor uses the claimed thresholds ≥ 8 / ≤ 5 on its rounded scores. -/
theorem strengths_improvement_thresholds (l : List VideoAnalysisData) (h : l ≠ []) :
    ((Msg.posture ∈ (processVideoAnalysisData l).analytics.strengths ↔
      8 ≤ calculateAverage (l.map (fun d => d.posture.score))) ∧
    (Msg.posture ∈ (processVideoAnalysisData l).analytics.improvementAreas ↔
      calculateAverage (l.map (fun d => d.posture.score)) < 6) ∧
    (Msg.movement ∈ (processVideoAnalysisData l).analytics.strengths ↔
      8 ≤ calculateAverage (l.map (fun d => d.movement.score))) ∧
    (Msg.movement ∈ (processVideoAnalysisData l).analytics.improvementAreas ↔
      calculateAverage (l.map (fun d => d.movement.score)) < 6) ∧
    (Msg.audio ∈ (processVideoAnalysisData l).analytics.strengths ↔
      8 ≤ calculateAverage (l.map (fun d => d.audioQuality.score))) ∧
    (Msg.audio ∈ (processVideoAnalysisData l).analytics.improvementAreas ↔
      calculateAverage (l.map (fun d => d.audioQuality.score)) < 6)) ∧
    (∀ lc : List CompatVideoData, lc ≠ [] →
      (Msg.posture ∈ (processVideoAnalysisDataCompatible lc).strengths ↔
        8 ≤ (processVideoAnalysisDataCompatible lc).postureScore) ∧
      (Msg.posture ∈ (processVideoAnalysisDataCompatible lc).improvementAreas ↔
        (processVideoAnalysisDataCompatible lc).postureScore ≤ 5) ∧
      (Msg.stability ∈ (processVideoAnalysisDataCompatible lc).strengths ↔
        8 ≤ (processVideoAnalysisDataCompatible lc).stabilityScore) ∧
      (Msg.stability ∈ (processVideoAnalysisDataCompatible lc).improvementAreas ↔
        (processVideoAnalysisDataCompatible lc).stabilityScore ≤ 5) ∧
      (Msg.voice ∈ (processVideoAnalysisDataCompatible lc).strengths ↔
        8 ≤ (processVideoAnalysisDataCompatible lc).voiceQualityScore) ∧
      (Msg.voice ∈ (processVideoAnalysisDataCompatible lc).improvementAreas ↔
        (processVideoAnalysisDataCompatible lc).voiceQualityScore ≤ 5)) := by
  constructor
  · have hlen : ¬ l.length = 0 := fun hl => h (List.length_eq_zero.mp hl)
    simp only [processVideoAnalysisData, if_neg hlen, generateAnalytics]
    refine ⟨?_, ?_, ?_, ?_, ?_, ?_⟩ <;>
      simp [mem_areaLists_fst, mem_areaLists_snd]
  · intro lc hlc
    have hlen : ¬ lc.length = 0 := fun hl => hlc (List.length_eq_zero.mp hl)
    simp only [processVideoAnalysisDataCompatible, if_neg hlen]
    refine ⟨?_, ?_, ?_, ?_, ?_, ?_⟩ <;>
      simp [mem_compatAreaLists_fst, mem_compatAreaLists_snd, mem_ite_singleton_iff]

/-- C8 (witness): the threshold characterisation evaluated on the window
with posture average 7 and on a concrete compatible window. -/
theorem strengths_improvement_thresholds_witness :
    (Msg.posture ∈ (processVideoAnalysisData windowMid).analytics.strengths ↔
      8 ≤ calculateAverage (windowMid.map (fun d => d.posture.score))) ∧
    (Msg.voice ∈ (processVideoAnalysisDataCompatible compatWindowFlat).improvementAreas ↔
      (processVideoAnalysisDataCompatible compatWindowFlat).voiceQualityScore ≤ 5) :=
  ⟨(strengths_improvement_thresholds windowMid (by simp [windowMid])).1.1,
   ((strengths_improvement_thresholds windowMid (by simp [windowMid])).2
      compatWindowFlat (by simp [compatWindowFlat])).2.2.2.2.2⟩

/-- C8 (counterexample): in the window whose movement scores average 11/2 —
strictly between 5 and 8, so the claim says it appears in **neither** list —
the movement dimension is listed as an improvement area by the main
processor (whose actual improvement threshold is < 6). -/
theorem between_thresholds_still_improvement :
    (5 : ℚ) < calculateAverage (windowMid.map (fun d => d.movement.score)) ∧
    calculateAverage (windowMid.map (fun d => d.movement.score)) < 8 ∧
    Msg.movement ∈ (processVideoAnalysisData windowMid).analytics.improvementAreas := by
  refine ⟨?_, ?_, ?_⟩
  · norm_num [calculateAverage, windowMid, mkSample]
  · norm_num [calculateAverage, windowMid, mkSample]
  · norm_num [processVideoAnalysisData, generateAnalytics, areaLists, calculateAverage,
      windowMid, mkSample]

/-! ### C9: releasing the shared capture resource -/

/-- C9: `stopStream` is idempotent — from any state, calling it twice leaves
the same state as calling it once — and on an already-released state (null
`streamRef`) it changes nothing; it is a total state transformer, so no
error can be raised. -/
theorem stopStream_idempotent (st : MediaState) :
    stopStream (stopStream st) = stopStream st ∧
    (st.streamRef = none → stopStream st = st) := by
  constructor
  · cases h : st.streamRef <;> simp [stopStream, h]
  · intro h
    simp [stopStream, h]

/-- C9 (witness): idempotence evaluated on a live one-track state and the
no-op evaluated on the idle state. -/
theorem stopStream_idempotent_witness :
    stopStream (stopStream activeMediaState) = stopStream activeMediaState ∧
    stopStream idleMediaState = idleMediaState :=
  ⟨(stopStream_idempotent activeMediaState).1,
   (stopStream_idempotent idleMediaState).2 rfl⟩

/-! ### C10: deterministic aggregation -/

/-- C10: aggregation is deterministic — with the ambient state (wall clock,
randomness) made explicit, the result of `processVideoAnalysisData` on equal
sample lists is identical regardless of the ambient state, and the
elapsed-time analytics is a function of the first and last recorded sample
timestamps only. -/
theorem aggregation_deterministic (env1 env2 : Ambient)
    (l1 l2 : List VideoAnalysisData) (h : l1 = l2) :
    processVideoAnalysisDataInEnv env1 l1 = processVideoAnalysisDataInEnv env2 l2 ∧
    (l1 ≠ [] → (processVideoAnalysisData l1).analytics.analysisTimeMinutes =
      round ((lastTimestamp l1 - firstTimestamp l1) / 1000 / 60)) := by
  subst h
  refine ⟨rfl, fun hne => ?_⟩
  simp [processVideoAnalysisData, hne, generateAnalytics]

/-- C10 (witness): determinism evaluated on a concrete window under two
different ambient states. -/
theorem aggregation_deterministic_witness :
    processVideoAnalysisDataInEnv ambientA window12 =
      processVideoAnalysisDataInEnv ambientB window12 ∧
    (processVideoAnalysisData window12).analytics.analysisTimeMinutes =
      round ((lastTimestamp window12 - firstTimestamp window12) / 1000 / 60) :=
  ⟨(aggregation_deterministic ambientA ambientB window12 window12 rfl).1,
   (aggregation_deterministic ambientA ambientB window12 window12 rfl).2
     (by simp [window12])⟩

/-! ### C5: score ranges of both analysis paths -/

/-- The heuristic posture score lies in [0, 10]. -/
theorem analyzePosture_score_range (frameData : List ℚ) (width height : ℕ) :
    0 ≤ (analyzePosture frameData width height).score ∧
    (analyzePosture frameData width height).score ≤ 10 := by
  unfold analyzePosture
  dsimp only
  constructor
  · refine le_min ?_ (by norm_num)
    split_ifs <;> norm_num
  · exact min_le_right _ _

/-- The significant-change fraction of the heuristic movement analysis is
non-negative. -/
theorem movementChangeFrac_nonneg (c p : List ℚ) : 0 ≤ movementChangeFrac c p := by
  unfold movementChangeFrac
  positivity

/-- The heuristic movement score lies in [0, 10] (on both branches). -/
theorem analyzeMovement_score_range (c : List ℚ) (p? : Option (List ℚ)) :
    0 ≤ (analyzeMovement c p?).score ∧ (analyzeMovement c p?).score ≤ 10 := by
  cases p? with
  | none => simp [analyzeMovement]
  | some p =>
    unfold analyzeMovement
    dsimp only
    have hcf := movementChangeFrac_nonneg c p
    have hfid : (0:ℚ) ≤ min 10 (movementChangeFrac c p * 100) :=
      le_min (by norm_num) (by positivity)
    exact round_mem_zero_ten (le_max_left _ _)
      (max_le (by norm_num) (by linarith))

/-- The heuristic audio score lies in [0, 10] (on both branches). -/
theorem analyzeAudioQuality_score_range (a? : Option (List ℚ)) :
    0 ≤ (analyzeAudioQuality a?).score ∧ (analyzeAudioQuality a?).score ≤ 10 := by
  cases a? with
  | none => simp [analyzeAudioQuality]
  | some arr =>
    unfold analyzeAudioQuality
    dsimp only
    set vl : ℚ := min 10 (max 0 (arr.sum / (arr.length : ℚ) / (128/5))) with hvl
    set cl : ℚ := min 10 (max 0 (((arr.drop (⌊(arr.length : ℚ) * (1/10)⌋).toNat).take
      ((⌊(arr.length : ℚ) * (3/5)⌋).toNat - (⌊(arr.length : ℚ) * (1/10)⌋).toNat)).sum /
      (((⌊(arr.length : ℚ) * (3/5)⌋).toNat : ℚ) - ((⌊(arr.length : ℚ) * (1/10)⌋).toNat : ℚ)) /
      (128/5))) with hcl
    have hvl0 : 0 ≤ vl := le_min (by norm_num) (le_max_left _ _)
    have hvl10 : vl ≤ 10 := min_le_left _ _
    have hcl0 : 0 ≤ cl := le_min (by norm_num) (le_max_left _ _)
    have hcl10 : cl ≤ 10 := min_le_left _ _
    have hco0 : (0:ℚ) ≤ min 10 (if vl > 2 then 8 else 4) := by
      refine le_min (by norm_num) ?_
      split_ifs <;> norm_num
    have hco10 : min 10 (if vl > (2:ℚ) then (8:ℚ) else 4) ≤ 10 := min_le_left _ _
    refine round_mem_zero_ten ?_ ?_
    · positivity
    · rw [div_le_iff₀ (by norm_num : (0:ℚ) < 3)]
      linarith

/-- Every score of a heuristic-path sample lies in [0, 10]. -/
theorem analyzeFrame_scores_range (frameData : List ℚ) (width height : ℕ)
    (previousFrameData analyserData : Option (List ℚ)) (now : ℚ) :
    (0 ≤ (analyzeFrame frameData width height previousFrameData analyserData now).posture.score ∧
      (analyzeFrame frameData width height previousFrameData analyserData now).posture.score ≤ 10) ∧
    (0 ≤ (analyzeFrame frameData width height previousFrameData analyserData now).movement.score ∧
      (analyzeFrame frameData width height previousFrameData analyserData now).movement.score ≤ 10) ∧
    (0 ≤ (analyzeFrame frameData width height previousFrameData analyserData now).audioQuality.score ∧
      (analyzeFrame frameData width height previousFrameData analyserData now).audioQuality.score ≤ 10) ∧
    (0 ≤ (analyzeFrame frameData width height previousFrameData analyserData now).overall.score ∧
      (analyzeFrame frameData width height previousFrameData analyserData now).overall.score ≤ 10) := by
  obtain ⟨hp0, hp10⟩ := analyzePosture_score_range frameData width height
  obtain ⟨hm0, hm10⟩ := analyzeMovement_score_range frameData previousFrameData
  obtain ⟨ha0, ha10⟩ := analyzeAudioQuality_score_range analyserData
  have hm0q : (0:ℚ) ≤ ((analyzeMovement frameData previousFrameData).score : ℚ) := by
    exact_mod_cast hm0
  have hm10q : ((analyzeMovement frameData previousFrameData).score : ℚ) ≤ 10 := by
    exact_mod_cast hm10
  have ha0q : (0:ℚ) ≤ ((analyzeAudioQuality analyserData).score : ℚ) := by
    exact_mod_cast ha0
  have ha10q : ((analyzeAudioQuality analyserData).score : ℚ) ≤ 10 := by
    exact_mod_cast ha10
  unfold analyzeFrame
  dsimp only
  refine ⟨⟨hp0, hp10⟩, ⟨hm0q, hm10q⟩, ⟨ha0q, ha10q⟩, ?_⟩
  have hr := round_mem_zero_ten (α := ℚ)
    (x := ((analyzePosture frameData width height).score +
      ((analyzeMovement frameData previousFrameData).score : ℚ) +
      ((analyzeAudioQuality analyserData).score : ℚ)) / 3)
    (div_nonneg (by linarith) (by norm_num))
    (by rw [div_le_iff₀ (by norm_num : (0:ℚ) < 3)]; linarith)
  constructor
  · exact_mod_cast hr.1
  · exact_mod_cast hr.2

/-- The MediaPipe head-movement estimate is non-negative. -/
theorem mpHeadMovement_nonneg (hist : List BoundingBox) : 0 ≤ mpHeadMovement hist := by
  unfold mpHeadMovement
  dsimp only
  split_ifs with h1 h2
  · refine div_nonneg ?_ ?_
    · apply List.sum_nonneg
      intro x hx
      unfold pairwiseDisplacements at hx
      simp only [List.mem_map] at hx
      obtain ⟨pq, _, rfl⟩ := hx
      exact Real.sqrt_nonneg _
    · have h2' : 1 < ((hist.drop (hist.length - 10)).map
          (fun h => (h.xCenter, h.yCenter))).length := h2
      have : (2:ℝ) ≤ (((hist.drop (hist.length - 10)).map
          (fun h => (h.xCenter, h.yCenter))).length : ℝ) := by exact_mod_cast h2'
      linarith
  · exact le_refl 0
  · exact le_refl 0

/-- The MediaPipe audio score lies in [0, 10] (on both branches). -/
theorem analyzeAudioQualityMP_score_range (a? : Option (List ℚ)) :
    0 ≤ (analyzeAudioQualityMP a?).score ∧ (analyzeAudioQualityMP a?).score ≤ 10 := by
  cases a? with
  | none => simp [analyzeAudioQualityMP]
  | some arr =>
    unfold analyzeAudioQualityMP
    dsimp only
    set vl : ℝ := min 10 (max 0 (Real.sqrt ((((arr.map (fun v => v * v)).sum /
      (arr.length : ℚ) : ℚ)) : ℝ) / 20)) with hvl
    set cl : ℝ := min 10 (max 0 ((((arr.drop (⌊(arr.length : ℚ) * (1/10)⌋).toNat).take
      ((⌊(arr.length : ℚ) * (3/5)⌋).toNat - (⌊(arr.length : ℚ) * (1/10)⌋).toNat)).sum /
      (((⌊(arr.length : ℚ) * (3/5)⌋).toNat : ℚ) - ((⌊(arr.length : ℚ) * (1/10)⌋).toNat : ℚ)) : ℚ) / 20))
      with hcl
    have hvl0 : 0 ≤ vl := le_min (by norm_num) (le_max_left _ _)
    have hvl10 : vl ≤ 10 := min_le_left _ _
    have hcl0 : 0 ≤ cl := le_min (by norm_num) (le_max_left _ _)
    have hcl10 : cl ≤ 10 := min_le_left _ _
    have hco0 : (0:ℝ) ≤ min 10 (if vl > 2 then 8 else 4) := by
      refine le_min (by norm_num) ?_
      split_ifs <;> norm_num
    have hco10 : min 10 (if vl > (2:ℝ) then (8:ℝ) else 4) ≤ 10 := min_le_left _ _
    refine round_mem_zero_ten ?_ ?_
    · exact div_nonneg (by linarith) (by norm_num)
    · rw [div_le_iff₀ (by norm_num : (0:ℝ) < 3)]
      linarith

/-- The posture score reported by `analyzeWithMediaPipe`, written out as the
additive scheme actually implemented. -/
theorem analyzeWithMediaPipe_posture_score_eq (pf : MediaPipeDetection)
    (hist : List BoundingBox) (a? : Option (List ℚ)) (now : ℚ) :
    (analyzeWithMediaPipe pf hist a? now).posture.score =
      min 10 (round ((if pf.score > 3/5 then (3:ℚ) else 0) +
        (if |pf.boundingBox.xCenter - 1/2| < 1/5 ∧ |pf.boundingBox.yCenter - 2/5| < 1/5
          then 3 else 0) +
        (if pf.boundingBox.width * pf.boundingBox.height > 1/20 ∧
            pf.boundingBox.width * pf.boundingBox.height < 2/5 then 2 else 0) +
        (if pf.score > 4/5 then 1 else 0) +
        (if |pf.boundingBox.xCenter - 1/2| < 1/10 then 1 else 0))) := by
  unfold analyzeWithMediaPipe
  simp only [decide_eq_true_eq]

/-- The three movement fields reported by `analyzeWithMediaPipe`, written out
in terms of the head-movement estimate. -/
theorem analyzeWithMediaPipe_movement_eq (pf : MediaPipeDetection)
    (hist : List BoundingBox) (a? : Option (List ℚ)) (now : ℚ) :
    (analyzeWithMediaPipe pf hist a? now).movement.fidgetingLevel =
      round (min 10 (mpHeadMovement hist * 25)) ∧
    (analyzeWithMediaPipe pf hist a? now).movement.stability =
      round (max 0 ((10:ℝ) - mpHeadMovement hist * 30)) ∧
    (analyzeWithMediaPipe pf hist a? now).movement.score =
      round (max 0 ((10:ℝ) - min 10 (mpHeadMovement hist * 25))) := by
  unfold analyzeWithMediaPipe
  exact ⟨rfl, rfl, rfl⟩

/-- Every score of a MediaPipe-path sample lies in [0, 10]. -/
theorem analyzeWithMediaPipe_scores_range (pf : MediaPipeDetection)
    (hist : List BoundingBox) (a? : Option (List ℚ)) (now : ℚ) :
    (0 ≤ (analyzeWithMediaPipe pf hist a? now).posture.score ∧
      (analyzeWithMediaPipe pf hist a? now).posture.score ≤ 10) ∧
    (0 ≤ (analyzeWithMediaPipe pf hist a? now).movement.score ∧
      (analyzeWithMediaPipe pf hist a? now).movement.score ≤ 10) ∧
    (0 ≤ (analyzeWithMediaPipe pf hist a? now).audioQuality.score ∧
      (analyzeWithMediaPipe pf hist a? now).audioQuality.score ≤ 10) ∧
    (0 ≤ (analyzeWithMediaPipe pf hist a? now).overall.score ∧
      (analyzeWithMediaPipe pf hist a? now).overall.score ≤ 10) := by
  obtain ⟨ha0, ha10⟩ := analyzeAudioQualityMP_score_range a?
  have hm0 := mpHeadMovement_nonneg hist
  have hfid0 : (0:ℝ) ≤ min 10 (mpHeadMovement hist * 25) :=
    le_min (by norm_num) (by positivity)
  have hms := round_mem_zero_ten (α := ℝ)
    (x := max 0 ((10:ℝ) - min 10 (mpHeadMovement hist * 25)))
    (le_max_left _ _) (max_le (by norm_num) (by linarith))
  unfold analyzeWithMediaPipe
  dsimp only
  simp only [decide_eq_true_eq]
  set raw : ℚ := (if pf.score > 3/5 then (3:ℚ) else 0) +
    (if |pf.boundingBox.xCenter - 1/2| < 1/5 ∧ |pf.boundingBox.yCenter - 2/5| < 1/5
      then 3 else 0) +
    (if pf.boundingBox.width * pf.boundingBox.height > 1/20 ∧
        pf.boundingBox.width * pf.boundingBox.height < 2/5 then 2 else 0) +
    (if pf.score > 4/5 then 1 else 0) +
    (if |pf.boundingBox.xCenter - 1/2| < 1/10 then 1 else 0) with hrawdef
  have hraw0 : (0:ℚ) ≤ raw := by rw [hrawdef]; split_ifs <;> norm_num
  have hraw10 : raw ≤ 10 := by rw [hrawdef]; split_ifs <;> norm_num
  refine ⟨⟨le_min (by norm_num) ?_, min_le_left _ _⟩, ⟨hms.1, hms.2⟩, ⟨ha0, ha10⟩, ?_⟩
  · have h := round_le_round (α := ℚ) hraw0
    simpa using h
  · refine round_mem_zero_ten (div_nonneg ?_ (by norm_num)) ?_
    · refine add_nonneg (add_nonneg ?_ ?_) ?_
      · exact_mod_cast hraw0
      · exact_mod_cast hms.1
      · exact_mod_cast ha0
    · rw [div_le_iff₀ (by norm_num : (0:ℝ) < 3)]
      have h1 : ((raw : ℚ) : ℝ) ≤ 10 := by exact_mod_cast hraw10
      have h2 : ((round (max 0 ((10:ℝ) - min 10 (mpHeadMovement hist * 25))) : ℤ) : ℝ) ≤ 10 := by
        exact_mod_cast hms.2
      have h3 : (((analyzeAudioQualityMP a?).score : ℤ) : ℝ) ≤ 10 := by exact_mod_cast ha10
      linarith

/-- Every score of the MediaPipe fallback sample lies in [0, 10]. -/
theorem sharedFallbackAnalysis_scores_range (a? : Option (List ℚ)) (now : ℚ) :
    (0 ≤ (sharedFallbackAnalysis a? now).posture.score ∧
      (sharedFallbackAnalysis a? now).posture.score ≤ 10) ∧
    (0 ≤ (sharedFallbackAnalysis a? now).movement.score ∧
      (sharedFallbackAnalysis a? now).movement.score ≤ 10) ∧
    (0 ≤ (sharedFallbackAnalysis a? now).audioQuality.score ∧
      (sharedFallbackAnalysis a? now).audioQuality.score ≤ 10) ∧
    (0 ≤ (sharedFallbackAnalysis a? now).overall.score ∧
      (sharedFallbackAnalysis a? now).overall.score ≤ 10) := by
  obtain ⟨ha0, ha10⟩ := analyzeAudioQualityMP_score_range a?
  unfold sharedFallbackAnalysis
  dsimp only
  refine ⟨⟨by norm_num, by norm_num⟩, ⟨by norm_num, by norm_num⟩, ⟨ha0, ha10⟩, ?_⟩
  refine round_mem_zero_ten (div_nonneg ?_ (by norm_num)) ?_
  · have h : (0:ℝ) ≤ (((analyzeAudioQualityMP a?).score : ℤ) : ℝ) := by exact_mod_cast ha0
    linarith
  · rw [div_le_iff₀ (by norm_num : (0:ℝ) < 3)]
    have h : (((analyzeAudioQualityMP a?).score : ℤ) : ℝ) ≤ 10 := by exact_mod_cast ha10
    linarith

/-- C5: for every sample produced by either analysis path — the heuristic
pixel analysis, the MediaPipe analysis, or the MediaPipe fallback — on
arbitrary frame, audio and history inputs, each sub-score (posture,
movement, audio) and the overall score lies in [0, 10]. -/
theorem all_scores_in_range :
    (∀ (frameData : List ℚ) (width height : ℕ)
        (previousFrameData analyserData : Option (List ℚ)) (now : ℚ),
      (0 ≤ (analyzeFrame frameData width height previousFrameData analyserData now).posture.score ∧
        (analyzeFrame frameData width height previousFrameData analyserData now).posture.score ≤ 10) ∧
      (0 ≤ (analyzeFrame frameData width height previousFrameData analyserData now).movement.score ∧
        (analyzeFrame frameData width height previousFrameData analyserData now).movement.score ≤ 10) ∧
      (0 ≤ (analyzeFrame frameData width height previousFrameData analyserData now).audioQuality.score ∧
        (analyzeFrame frameData width height previousFrameData analyserData now).audioQuality.score ≤ 10) ∧
      (0 ≤ (analyzeFrame frameData width height previousFrameData analyserData now).overall.score ∧
        (analyzeFrame frameData width height previousFrameData analyserData now).overall.score ≤ 10)) ∧
    (∀ (primaryFace : MediaPipeDetection) (faceHistory : List BoundingBox)
        (analyserData : Option (List ℚ)) (now : ℚ),
      (0 ≤ (analyzeWithMediaPipe primaryFace faceHistory analyserData now).posture.score ∧
        (analyzeWithMediaPipe primaryFace faceHistory analyserData now).posture.score ≤ 10) ∧
      (0 ≤ (analyzeWithMediaPipe primaryFace faceHistory analyserData now).movement.score ∧
        (analyzeWithMediaPipe primaryFace faceHistory analyserData now).movement.score ≤ 10) ∧
      (0 ≤ (analyzeWithMediaPipe primaryFace faceHistory analyserData now).audioQuality.score ∧
        (analyzeWithMediaPipe primaryFace faceHistory analyserData now).audioQuality.score ≤ 10) ∧
      (0 ≤ (analyzeWithMediaPipe primaryFace faceHistory analyserData now).overall.score ∧
        (analyzeWithMediaPipe primaryFace faceHistory analyserData now).overall.score ≤ 10)) ∧
    (∀ (analyserData : Option (List ℚ)) (now : ℚ),
      (0 ≤ (sharedFallbackAnalysis analyserData now).posture.score ∧
        (sharedFallbackAnalysis analyserData now).posture.score ≤ 10) ∧
      (0 ≤ (sharedFallbackAnalysis analyserData now).movement.score ∧
        (sharedFallbackAnalysis analyserData now).movement.score ≤ 10) ∧
      (0 ≤ (sharedFallbackAnalysis analyserData now).audioQuality.score ∧
        (sharedFallbackAnalysis analyserData now).audioQuality.score ≤ 10) ∧
      (0 ≤ (sharedFallbackAnalysis analyserData now).overall.score ∧
        (sharedFallbackAnalysis analyserData now).overall.score ≤ 10)) :=
  ⟨analyzeFrame_scores_range, analyzeWithMediaPipe_scores_range,
    sharedFallbackAnalysis_scores_range⟩

/-! ### C6: the posture scoring scheme -/

/-- C6 (amended): the posture score is additive, but with different weights
and bonuses than claimed.  MediaPipe (LandmarkDetector) path: +3 if visible
(confidence > 0.6), +3 if centered (both alignments < 0.2), +2 if the
distance is appropriate (0.05 < box area < 0.4), plus **two separate +1
bonuses** — one for confidence > 0.8 and one for very-good horizontal
centering (< 0.1) — capped at 10.  Heuristic path: +4 if visible, +3 if
centered, +3 if the distance is appropriate, capped at 10.  Both results lie
in [0, 10]. -/
theorem posture_additive_scheme :
    (∀ (pf : MediaPipeDetection) (hist : List BoundingBox)
        (a? : Option (List ℚ)) (now : ℚ),
      (analyzeWithMediaPipe pf hist a? now).posture.score =
        min 10 (round
          ((if (analyzeWithMediaPipe pf hist a? now).posture.faceVisible then (3:ℚ) else 0) +
           (if (analyzeWithMediaPipe pf hist a? now).posture.faceCentered then 3 else 0) +
           (if (analyzeWithMediaPipe pf hist a? now).posture.appropriateDistance then 2 else 0) +
           (if pf.score > 4/5 then 1 else 0) +
           (if |pf.boundingBox.xCenter - 1/2| < 1/10 then 1 else 0))) ∧
      0 ≤ (analyzeWithMediaPipe pf hist a? now).posture.score ∧
      (analyzeWithMediaPipe pf hist a? now).posture.score ≤ 10) ∧
    (∀ (frameData : List ℚ) (width height : ℕ),
      (analyzePosture frameData width height).score =
        min ((if (analyzePosture frameData width height).faceVisible then (4:ℚ) else 0) +
          (if (analyzePosture frameData width height).faceCentered then 3 else 0) +
          (if (analyzePosture frameData width height).appropriateDistance then 3 else 0)) 10 ∧
      0 ≤ (analyzePosture frameData width height).score ∧
      (analyzePosture frameData width height).score ≤ 10) := by
  constructor
  · intro pf hist a? now
    refine ⟨?_, ((analyzeWithMediaPipe_scores_range pf hist a? now).1.1),
      ((analyzeWithMediaPipe_scores_range pf hist a? now).1.2)⟩
    unfold analyzeWithMediaPipe
    rfl
  · intro frameData width height
    refine ⟨?_, (analyzePosture_score_range frameData width height).1,
      (analyzePosture_score_range frameData width height).2⟩
    unfold analyzePosture
    rfl

/-- C6 (counterexample): a detection with confidence 7/8 (> 0.8), visible,
centered and at appropriate distance, but with horizontal alignment 1/8
(≥ 0.1): the claimed scheme (+3+3+2 and a +2 landmark-confidence bonus)
yields 10, while the code yields 9 (+3+3+2, +1 confidence bonus, and no
very-well-centered bonus). -/
theorem mediapipe_posture_bonus_counterexample :
    (analyzeWithMediaPipe detectionConf875 [] none 0).posture.faceVisible = true ∧
    (analyzeWithMediaPipe detectionConf875 [] none 0).posture.faceCentered = true ∧
    (analyzeWithMediaPipe detectionConf875 [] none 0).posture.appropriateDistance = true ∧
    detectionConf875.score > 4/5 ∧
    (analyzeWithMediaPipe detectionConf875 [] none 0).posture.score = 9 ∧
    specPostureScore true true true true detectionConf875.score = 10 ∧
    (analyzeWithMediaPipe detectionConf875 [] none 0).posture.score ≠
      specPostureScore true true true true detectionConf875.score := by
  have h18 : |(1:ℚ)/8| = 1/8 := abs_of_pos (by norm_num)
  have h140 : |(1:ℚ)/40| = 1/40 := abs_of_pos (by norm_num)
  norm_num [analyzeWithMediaPipe, detectionConf875, specPostureScore, round_eq,
    min_def, max_def, decide_eq_true_eq, h18, h140]

/-! ### C7: the movement analysis -/

/-- C7 (amended): with no previous frame the heuristic movement analysis
returns `{score: 8, fidgetingLevel: 0, stability: 10}` — a score of **8**,
not the stability value.  With a previous frame,
`fidgetingLevel = round (min 10 (changeFraction·100))`,
`stability = round (max 0 (10 − avgDifference/10))`, and the movement score
is `round (max 0 (10 − fidgetingLevel))`, computed from the fidgeting level,
not equal to the stability value in general.  The MediaPipe path returns the
neutral `{score: 10, fidgetingLevel: 0, stability: 10}` whenever the face
history holds at most 3 entries (in particular for fewer than 2 positions),
and in general derives `fidgetingLevel = min 10 (headMovement·25)`,
`stability = max 0 (10 − headMovement·30)` and
`score = round (max 0 (10 − fidgetingLevel))`, each rounded. -/
theorem movement_analysis_characterization :
    (∀ currentFrame : List ℚ, analyzeMovement currentFrame none =
      { score := 8, fidgetingLevel := 0, stability := 10 }) ∧
    (∀ currentFrame previous : List ℚ,
      (analyzeMovement currentFrame (some previous)).fidgetingLevel =
        round (min 10 (movementChangeFrac currentFrame previous * 100)) ∧
      (analyzeMovement currentFrame (some previous)).stability =
        round (max 0 (10 - movementAvgDifference currentFrame previous / 10)) ∧
      (analyzeMovement currentFrame (some previous)).score =
        round (max 0 ((10:ℚ) - min 10 (movementChangeFrac currentFrame previous * 100)))) ∧
    (∀ hist : List BoundingBox, hist.length ≤ 3 →
      ∀ (pf : MediaPipeDetection) (a? : Option (List ℚ)) (now : ℚ),
      (analyzeWithMediaPipe pf hist a? now).movement.score = 10 ∧
      (analyzeWithMediaPipe pf hist a? now).movement.fidgetingLevel = 0 ∧
      (analyzeWithMediaPipe pf hist a? now).movement.stability = 10) ∧
    (∀ (pf : MediaPipeDetection) (hist : List BoundingBox)
        (a? : Option (List ℚ)) (now : ℚ),
      (analyzeWithMediaPipe pf hist a? now).movement.fidgetingLevel =
        round (min 10 (mpHeadMovement hist * 25)) ∧
      (analyzeWithMediaPipe pf hist a? now).movement.stability =
        round (max 0 ((10:ℝ) - mpHeadMovement hist * 30)) ∧
      (analyzeWithMediaPipe pf hist a? now).movement.score =
        round (max 0 ((10:ℝ) - min 10 (mpHeadMovement hist * 25)))) := by
  refine ⟨fun c => rfl, fun c p => ?_, fun hist hle pf a? now => ?_,
    analyzeWithMediaPipe_movement_eq⟩
  · unfold analyzeMovement
    exact ⟨rfl, rfl, rfl⟩
  · have hm : mpHeadMovement hist = 0 := by
      unfold mpHeadMovement
      rw [if_neg (by omega)]
    obtain ⟨h1, h2, h3⟩ := analyzeWithMediaPipe_movement_eq pf hist a? now
    refine ⟨?_, ?_, ?_⟩
    · rw [h3, hm]
      norm_num
    · rw [h1, hm]
      norm_num
    · rw [h2, hm]
      norm_num

/-- C7 (witness): the characterisation evaluated with no previous frame and
with an empty face history. -/
theorem movement_analysis_characterization_witness :
    analyzeMovement [] none = { score := 8, fidgetingLevel := 0, stability := 10 } ∧
    (analyzeWithMediaPipe detectionConf875 [] none 0).movement.score = 10 ∧
    (analyzeWithMediaPipe detectionConf875 [] none 0).movement.fidgetingLevel = 0 ∧
    (analyzeWithMediaPipe detectionConf875 [] none 0).movement.stability = 10 :=
  ⟨movement_analysis_characterization.1 [],
   (movement_analysis_characterization.2.2.1 [] (by decide) detectionConf875 none 0).1,
   (movement_analysis_characterization.2.2.1 [] (by decide) detectionConf875 none 0).2.1,
   (movement_analysis_characterization.2.2.1 [] (by decide) detectionConf875 none 0).2.2⟩

/-- C7 (counterexample): with a single observed frame (no previous frame —
fewer than 2 points) the heuristic analysis reports stability 10 and
fidgeting 0 as claimed, but its movement score is 8, so the movement score
does **not** equal the stability value. -/
theorem movement_initial_score_not_stability :
    (analyzeMovement [] none).stability = 10 ∧
    (analyzeMovement [] none).fidgetingLevel = 0 ∧
    (analyzeMovement [] none).score = 8 ∧
    (analyzeMovement [] none).score ≠ (analyzeMovement [] none).stability := by
  refine ⟨rfl, rfl, rfl, by simp [analyzeMovement]⟩
